import Mathlib

/-!
Verification of the connection/session bridge of the Figma MCP client
repository, as a shallow embedding in Lean 4.

The embedded components are:

- `McpClient` (from `src/tauri-mcp-client/src/lib/mcpClient.ts`): the
  mocked request dispatcher with a `connected` flag, mock `listTools`
  and `callTool`, `disconnect`, `isConnected`.
- `FigmaMCPClient` (from `src/unnamed/part_000`): the stdio-backed
  dispatcher whose four operations (`listTools`, `listPrompts`,
  `callTool`, `getPrompt`) are guarded by an `isConnected` flag and
  forward one request to the underlying SDK client, modelled as an
  environment function from requests to responses.
- `WebSocketClient` (from `src/tauri-mcp-client/src/app/page.tsx`):
  the socket gateway client with its pending-query map, broadcast
  message handler, exponential-backoff reconnect scheduler, and
  `sendQuery` / `disconnect` / `isConnected` operations.

Asynchronous callback invocations are modelled as explicit event lists
`(queryId, CallbackEvent)` returned by the state transitions, and the
environment (whether a fresh socket connection opens, errors or times
out) is an explicit `ConnectOutcome` argument.  Thrown exceptions /
rejected promises are `Except.error`.
-/

/-! ## McpClient (src/tauri-mcp-client/src/lib/mcpClient.ts) -/

/-- A single property of a tool input schema: its `type` and
`description` strings as they appear in the mock tool list. -/
structure McpPropSchema where
  type : String
  description : String
deriving DecidableEq

/-- Input schema of a tool: `type`, named `properties`, `required` list. -/
structure McpInputSchema where
  type : String
  properties : List (String × McpPropSchema)
  required : List String
deriving DecidableEq

/-- `McpTool` interface: name, description, input schema. -/
structure McpTool where
  name : String
  description : String
  inputSchema : McpInputSchema
deriving DecidableEq

/-- One element of a `McpToolResult.content` array. -/
structure McpContentItem where
  type : String
  text : Option String
  data : Option String
  mimeType : Option String
deriving DecidableEq

/-- `McpToolResult` interface: content array plus optional `isError`
flag (`none` models the field being absent/unset). -/
structure McpToolResult where
  content : List McpContentItem
  isError : Option Bool
deriving DecidableEq

/-- State of a `McpClient` instance: its base URL and `connected` flag. -/
structure McpClientState where
  baseUrl : String
  connected : Bool
deriving DecidableEq

/-- A freshly constructed `McpClient` (constructor with default URL):
`connected` starts `false`. -/
def mcpNew : McpClientState :=
  { baseUrl := "http://localhost:3000", connected := false }

/-- A single-quote character, used to reproduce the quoting in the mock
tool-call text verbatim. -/
def quoteChar : String := String.singleton (Char.ofNat 39)

namespace McpClient

/-- `McpClient.connect`: sets `connected := true` and resolves `true`
(the catch branch of the source is unreachable). -/
def connect (s : McpClientState) : McpClientState × Bool :=
  ({ s with connected := true }, true)

/-- `McpClient.isConnected`. -/
def isConnected (s : McpClientState) : Bool :=
  s.connected

/-- `McpClient.disconnect`: sets `connected := false`. -/
def disconnect (s : McpClientState) : McpClientState :=
  { s with connected := false }

/-- The hard-coded mock tool list returned by `McpClient.listTools`. -/
def mockTools : List McpTool :=
  [ { name := "get_document_info"
    , description := "Get detailed information about the current Figma document"
    , inputSchema := { type := "object", properties := [], required := [] } }
  , { name := "get_selection"
    , description := "Get information about the current selection in Figma"
    , inputSchema := { type := "object", properties := [], required := [] } }
  , { name := "create_rectangle"
    , description := "Create a new rectangle in Figma"
    , inputSchema :=
      { type := "object"
      , properties :=
        [ ("x", { type := "number", description := "X position" })
        , ("y", { type := "number", description := "Y position" })
        , ("width", { type := "number", description := "Width of the rectangle" })
        , ("height", { type := "number", description := "Height of the rectangle" })
        , ("name", { type := "string", description := "Optional name for the rectangle" }) ]
      , required := ["x", "y", "width", "height"] } }
  , { name := "create_frame"
    , description := "Create a new frame in Figma"
    , inputSchema :=
      { type := "object"
      , properties :=
        [ ("x", { type := "number", description := "X position" })
        , ("y", { type := "number", description := "Y position" })
        , ("width", { type := "number", description := "Width of the frame" })
        , ("height", { type := "number", description := "Height of the frame" })
        , ("name", { type := "string", description := "Optional name for the frame" }) ]
      , required := ["x", "y", "width", "height"] } }
  , { name := "create_text"
    , description := "Create a new text element in Figma"
    , inputSchema :=
      { type := "object"
      , properties :=
        [ ("x", { type := "number", description := "X position" })
        , ("y", { type := "number", description := "Y position" })
        , ("text", { type := "string", description := "Text content" })
        , ("fontSize", { type := "number", description := "Font size" })
        , ("name", { type := "string", description := "Optional name for the text" }) ]
      , required := ["x", "y", "text"] } }
  , { name := "join_channel"
    , description := "Join a specific channel to communicate with Figma"
    , inputSchema :=
      { type := "object"
      , properties :=
        [ ("channel", { type := "string", description := "The name of the channel to join" }) ]
      , required := ["channel"] } } ]

/-- `McpClient.listTools`: throws `Not connected to MCP server` when the
`connected` flag is unset, otherwise returns the mock tool list. -/
def listTools (s : McpClientState) : Except String (List McpTool) :=
  if !s.connected then
    .error "Not connected to MCP server"
  else
    .ok mockTools

/-- `McpClient.callTool`: throws `Not connected to MCP server` when the
`connected` flag is unset; otherwise returns the mock success result
echoing the tool name and (pre-serialized) argument map.  The `catch`
branch of the source (which would set `isError := true`) is unreachable,
so `isError` is never set.  `args` stands for
`JSON.stringify(toolCall.arguments, null, 2)`. -/
def callTool (s : McpClientState) (name : String) (args : String) :
    Except String McpToolResult :=
  if !s.connected then
    .error "Not connected to MCP server"
  else
    .ok
      { content :=
          [ { type := "text"
            , text := some ("Tool " ++ quoteChar ++ name ++ quoteChar ++
                " called with arguments: " ++ args)
            , data := none
            , mimeType := none } ]
      , isError := none }

end McpClient

/-! ## FigmaMCPClient (src/unnamed/part_000) -/

/-- Parameters of an SDK request: the optional `name` and the optional
(pre-serialized) `arguments` map. -/
structure McpRequestParams where
  name : Option String
  arguments : Option String
deriving DecidableEq

/-- A request sent through the underlying SDK client: a `method` string
plus parameters. -/
structure McpRequest where
  method : String
  params : McpRequestParams
deriving DecidableEq

/-- State of a `FigmaMCPClient`: its private `isConnected` flag.  The
SDK `client` and `transport` are modelled by the environment argument of
each operation. -/
structure FigmaMCPClientState where
  isConnected : Bool
deriving DecidableEq

/-- The serialized empty JSON object, the default for `arguments_ || \x7b\x7d`. -/
def emptyJson : String := "\x7b\x7d"

/-- An environment for the underlying SDK client: maps each request to
its (opaque, pre-serialized) response or a thrown error. -/
def McpEnv : Type := McpRequest → Except String String

namespace FigmaMCPClient

/-- `FigmaMCPClient.isClientConnected`. -/
def isClientConnected (c : FigmaMCPClientState) : Bool :=
  c.isConnected

/-- `FigmaMCPClient.listTools`: guarded by the `isConnected` flag, then
forwards one `tools/list` request; errors from the request propagate
(the catch logs and rethrows). -/
def listTools (c : FigmaMCPClientState) (env : McpEnv) :
    Except String String :=
  if !c.isConnected then
    .error "Not connected to MCP server"
  else
    env { method := "tools/list", params := { name := none, arguments := none } }

/-- `FigmaMCPClient.listPrompts`: guarded by the `isConnected` flag,
then forwards one `prompts/list` request. -/
def listPrompts (c : FigmaMCPClientState) (env : McpEnv) :
    Except String String :=
  if !c.isConnected then
    .error "Not connected to MCP server"
  else
    env { method := "prompts/list", params := { name := none, arguments := none } }

/-- `FigmaMCPClient.callTool`: guarded by the `isConnected` flag, then
forwards one `tools/call` request carrying the tool name and arguments. -/
def callTool (c : FigmaMCPClientState) (env : McpEnv)
    (toolName : String) (args : String) : Except String String :=
  if !c.isConnected then
    .error "Not connected to MCP server"
  else
    env { method := "tools/call"
        , params := { name := some toolName, arguments := some args } }

/-- `FigmaMCPClient.getPrompt`: guarded by the `isConnected` flag, then
forwards one `prompts/get` request; absent arguments default to the
empty object (`arguments_ || \x7b\x7d`). -/
def getPrompt (c : FigmaMCPClientState) (env : McpEnv)
    (promptName : String) (args : Option String) : Except String String :=
  if !c.isConnected then
    .error "Not connected to MCP server"
  else
    env { method := "prompts/get"
        , params := { name := some promptName
                    , arguments := some (args.getD emptyJson) } }

end FigmaMCPClient

/-! ## WebSocketClient (src/tauri-mcp-client/src/app/page.tsx) -/

/-- The `readyState` constants of a browser `WebSocket`. -/
inductive WsReadyState where
  | CONNECTING
  | OPEN
  | CLOSING
  | CLOSED
deriving DecidableEq

/-- The `type` field of a `WebSocketMessage`. -/
inductive MsgType where
  | query
  | progress
  | result
  | error
  | ping
  | pong
deriving DecidableEq

/-- The `data` field of a `WebSocketMessage` is an arbitrary JSON
payload; the client reads only its `.error` sub-field (in the error
branch of `handleMessage`).  `raw` is its serialized form, `error` the
value of its `.error` field (empty when absent). -/
structure MsgData where
  raw : String
  error : String
deriving DecidableEq

/-- `WebSocketMessage` envelope: `type`, optional `data`, optional
`query` text, optional `session_id`. -/
structure WebSocketMessage where
  type : MsgType
  data : Option MsgData
  query : Option String
  session_id : Option String
deriving DecidableEq

/-- `QueryOptions`: which of the three optional callbacks
(`onProgress`, `onResult`, `onError`) the caller supplied.  Callback
bodies are opaque; an invocation is recorded as a `CallbackEvent`. -/
structure QueryOptions where
  hasOnProgress : Bool
  hasOnResult : Bool
  hasOnError : Bool
deriving DecidableEq

/-- An invocation of one of a query's callbacks, with the payload it
received. -/
inductive CallbackEvent where
  | progressEvt (d : MsgData)
  | resultEvt (d : MsgData)
  | errorEvt (e : String)
deriving DecidableEq

/-- Whether an event is a terminal one (`onResult` or `onError`), as
opposed to an `onProgress` notification. -/
def CallbackEvent.isTerminal : CallbackEvent → Bool
  | .progressEvt _ => false
  | .resultEvt _ => true
  | .errorEvt _ => true

/-- State of the `WebSocketClient`: the socket (modelled by its
`readyState`, `none` when `ws === null`), the client id, the backoff
counters, the `pendingQueries` map (insertion-ordered, as a JS `Map`),
and the `isConnecting` flag. -/
structure WSClientState where
  ws : Option WsReadyState
  clientId : String
  reconnectAttempts : Nat
  maxReconnectAttempts : Nat
  reconnectDelay : Nat
  pendingQueries : List (String × QueryOptions)
  isConnecting : Bool
deriving DecidableEq

/-- A freshly constructed `WebSocketClient` with the given uuid:
`reconnectAttempts = 0`, `maxReconnectAttempts = 5`,
`reconnectDelay = 1000`. -/
def wsNew (clientId : String) : WSClientState :=
  { ws := none
  , clientId := clientId
  , reconnectAttempts := 0
  , maxReconnectAttempts := 5
  , reconnectDelay := 1000
  , pendingQueries := []
  , isConnecting := false }

/-- `Map.set` on the insertion-ordered `pendingQueries`: replaces the
entry with the same key in place, else appends. -/
def setPending (l : List (String × QueryOptions)) (id : String)
    (o : QueryOptions) : List (String × QueryOptions) :=
  if l.any (fun p => p.1 == id) then
    l.map (fun p => if p.1 == id then (id, o) else p)
  else
    l ++ [(id, o)]

/-- The fate of one fresh socket connection attempt, decided by the
environment: the `onopen` handler fires, the `onerror` handler fires,
or the 10s connection timeout expires first. -/
inductive ConnectOutcome where
  | opens
  | errors
  | timesOut
deriving DecidableEq

namespace WebSocketClient

/-- The `onopen` handler: clears `isConnecting` and resets the
consecutive-failure counter to zero (the promise then resolves `true`). -/
def wsOnOpen (s : WSClientState) : WSClientState :=
  { s with isConnecting := false, reconnectAttempts := 0 }

/-- The `onclose` handler, before `scheduleReconnect` runs: clears
`isConnecting` and nulls out the socket. -/
def wsOnClose (s : WSClientState) : WSClientState :=
  { s with isConnecting := false, ws := none }

/-- `WebSocketClient.connect`: if another attempt is already in flight,
poll until it opens (`true`) or gives up (`false`); if the socket is
already open, resolve `true`; otherwise start a fresh attempt whose
fate is the environment's `ConnectOutcome` — `onopen` resolves `true`
(resetting the failure counter), `onerror` rejects with the event, and
the 10s timer rejects with `Connection timeout`. -/
def connect (s : WSClientState) (env : ConnectOutcome) :
    Except String (WSClientState × Bool) :=
  if s.isConnecting then
    match env with
    | .opens => .ok ({ wsOnOpen s with ws := some .OPEN }, true)
    | .errors => .ok ({ s with isConnecting := false }, false)
    | .timesOut => .ok ({ s with isConnecting := false }, false)
  else if s.ws = some WsReadyState.OPEN then
    .ok (s, true)
  else
    match env with
    | .opens => .ok ({ wsOnOpen s with ws := some .OPEN }, true)
    | .errors => .error "WebSocket error"
    | .timesOut => .error "Connection timeout"

/-- `WebSocketClient.handleMessage`: dispatch on the message type when
`data` is present.  `progress` invokes the `onProgress` callback of
EVERY pending query; `result` (resp. `error`) invokes the `onResult`
(resp. `onError`) callback of every pending query and deletes them all
from the map.  Returns the new state and the list of callback
invocations in map (insertion) order. -/
def handleMessage (s : WSClientState) (m : WebSocketMessage) :
    WSClientState × List (String × CallbackEvent) :=
  match m.type, m.data with
  | .progress, some d =>
      (s, s.pendingQueries.filterMap fun p =>
        if p.2.hasOnProgress then some (p.1, .progressEvt d) else none)
  | .result, some d =>
      ({ s with pendingQueries := [] },
       s.pendingQueries.filterMap fun p =>
        if p.2.hasOnResult then some (p.1, .resultEvt d) else none)
  | .error, some d =>
      ({ s with pendingQueries := [] },
       s.pendingQueries.filterMap fun p =>
        if p.2.hasOnError then some (p.1, .errorEvt d.error) else none)
  | _, _ => (s, [])

/-- `WebSocketClient.scheduleReconnect`: when the consecutive-failure
counter is still below `maxReconnectAttempts`, schedules one reconnect
attempt after `reconnectDelay * 2 ^ reconnectAttempts` milliseconds and
returns that delay; otherwise schedules nothing. -/
def scheduleReconnect (s : WSClientState) : Option Nat :=
  if s.reconnectAttempts < s.maxReconnectAttempts then
    some (s.reconnectDelay * 2 ^ s.reconnectAttempts)
  else
    none

/-- One full failure cycle of the reconnect loop: the socket closes
(`onclose`), and — when `scheduleReconnect` armed a timer — that timer
fires, incrementing the consecutive-failure counter before the next
(again failing) `connect` call.  When nothing was scheduled the state
is left as the closed state. -/
def failCycle (s : WSClientState) : WSClientState :=
  let t := wsOnClose s
  match scheduleReconnect t with
  | some _ => { t with reconnectAttempts := t.reconnectAttempts + 1 }
  | none => t

/-- The delay armed by `scheduleReconnect` after `k` consecutive
failure cycles starting from `s` (`none` when no attempt is scheduled
any more). -/
def delayAt (s : WSClientState) (k : Nat) : Option Nat :=
  scheduleReconnect (failCycle^[k] s)

/-- `WebSocketClient.sendQuery`: awaits `connect` (propagating its
rejection; a `false` resolution throws `Failed to connect to
WebSocket`), registers the freshly generated `queryId` in
`pendingQueries` when callbacks were supplied, and sends the wire
message `\x7btype: "query", query, session_id\x7d` — which does not
carry `queryId`.  Returns the new state and the outbound message. -/
def sendQuery (s : WSClientState) (env : ConnectOutcome) (q : String)
    (sessionId : Option String) (options : Option QueryOptions)
    (queryId : String) : Except String (WSClientState × WebSocketMessage) :=
  match connect s env with
  | .error e => .error e
  | .ok (s', ok) =>
    if !ok then
      .error "Failed to connect to WebSocket"
    else
      let s'' := match options with
        | some o => { s' with pendingQueries := setPending s'.pendingQueries queryId o }
        | none => s'
      .ok (s'', { type := .query, data := none, query := some q, session_id := sessionId })

/-- `WebSocketClient.disconnect`: closes and nulls out the socket and
clears the whole `pendingQueries` map; no callback is invoked. -/
def disconnect (s : WSClientState) : WSClientState :=
  { s with ws := none, pendingQueries := [] }

/-- `WebSocketClient.isConnected`: `ws?.readyState === WebSocket.OPEN`. -/
def isConnected (s : WSClientState) : Bool :=
  s.ws = some WsReadyState.OPEN

end WebSocketClient

/-- An externally observable step of the gateway client while queries
are pending: an inbound socket message is handled, or `disconnect()` is
called. -/
inductive GatewayAction where
  | recv (m : WebSocketMessage)
  | close
deriving DecidableEq

/-- One step: `recv m` runs `handleMessage`, `close` runs `disconnect`
(which invokes no callback). -/
def stepAct (s : WSClientState) : GatewayAction → WSClientState × List (String × CallbackEvent)
  | .recv m => WebSocketClient.handleMessage s m
  | .close => (WebSocketClient.disconnect s, [])

/-- Run a sequence of steps, concatenating the callback invocations in
order. -/
def runActs (s : WSClientState) : List GatewayAction → WSClientState × List (String × CallbackEvent)
  | [] => (s, [])
  | a :: acts =>
    let r := stepAct s a
    let r2 := runActs r.1 acts
    (r2.1, r.2 ++ r2.2)

/-- Number of entries of the pending map with key `id`. -/
def countKey (id : String) (l : List (String × QueryOptions)) : Nat :=
  (l.filter (fun p => p.1 == id)).length

/-- Number of terminal callback invocations delivered to query `id`. -/
def terminalCount (id : String) (evs : List (String × CallbackEvent)) : Nat :=
  (evs.filter (fun e => e.1 == id && e.2.isTerminal)).length

/-! ## Helper lemmas about the trace semantics -/

/-- Terminal-invocation counting distributes over concatenation. -/
theorem terminalCount_append (id : String) (l1 l2 : List (String × CallbackEvent)) :
    terminalCount id (l1 ++ l2) = terminalCount id l1 + terminalCount id l2 := by
  simp [terminalCount, List.filter_append]

/-- A list of invocations that are all non-terminal contributes no
terminal invocation. -/
theorem terminalCount_eq_zero_of_nonterminal (id : String)
    (evs : List (String × CallbackEvent))
    (h : ∀ e ∈ evs, e.2.isTerminal = false) :
    terminalCount id evs = 0 := by
  unfold terminalCount
  rw [List.length_eq_zero, List.filter_eq_nil_iff]
  intro e he
  simp [h e he]

/-- The events emitted for the pending map by a key-preserving emitter
deliver at most one terminal invocation per pending occurrence of a
key. -/
theorem terminalCount_filterMap_le (id : String)
    (l : List (String × QueryOptions))
    (f : String × QueryOptions → Option (String × CallbackEvent))
    (hf : ∀ p e, f p = some e → e.1 = p.1) :
    terminalCount id (l.filterMap f) ≤ countKey id l := by
  induction l with
  | nil => simp [terminalCount, countKey]
  | cons p l ih =>
    have hck : countKey id (p :: l) =
        (if p.1 == id then 1 else 0) + countKey id l := by
      simp only [countKey, List.filter_cons]
      split <;> simp [Nat.add_comm]
    cases hfp : f p with
    | none =>
      simp only [List.filterMap_cons, hfp]
      rw [hck]
      split <;> omega
    | some e =>
      have he := hf p e hfp
      simp only [List.filterMap_cons, hfp]
      rw [hck]
      have htc : terminalCount id (e :: l.filterMap f) =
          (if e.1 == id && e.2.isTerminal then 1 else 0) +
            terminalCount id (l.filterMap f) := by
        simp only [terminalCount, List.filter_cons]
        split <;> simp [Nat.add_comm]
      rw [htc]
      by_cases hpid : (p.1 == id) = true
      · rw [if_pos hpid]
        have h1 : (if (e.1 == id && e.2.isTerminal) = true then 1 else 0) ≤ 1 := by
          split <;> omega
        omega
      · have heid : (e.1 == id) = false := by
          rw [he]
          simpa using hpid
        rw [if_neg hpid]
        simp [heid]
        omega

/-- One gateway step can deliver at most one terminal invocation per
pending occurrence of a query identifier, and any pending occurrence it
consumes is gone from the map afterwards. -/
theorem step_terminal_bound (s : WSClientState) (a : GatewayAction) (id : String) :
    terminalCount id (stepAct s a).2 +
      countKey id (stepAct s a).1.pendingQueries ≤
      countKey id s.pendingQueries := by
  cases a with
  | close =>
    simp [stepAct, WebSocketClient.disconnect, countKey, terminalCount]
  | recv m =>
    rcases m with ⟨ty, dt, qq, sid⟩
    cases ty <;> cases dt
    case progress.some d =>
      simp only [stepAct, WebSocketClient.handleMessage]
      have hz : terminalCount id (s.pendingQueries.filterMap fun p =>
          if p.2.hasOnProgress then some (p.1, CallbackEvent.progressEvt d)
          else none) = 0 := by
        apply terminalCount_eq_zero_of_nonterminal
        intro e he
        rcases List.mem_filterMap.mp he with ⟨p, _, hp⟩
        by_cases h : p.2.hasOnProgress = true
        · simp only [h, if_true, Option.some.injEq] at hp
          rw [← hp]
          rfl
        · simp [h] at hp
      omega
    case result.some d =>
      simp only [stepAct, WebSocketClient.handleMessage]
      have hb := terminalCount_filterMap_le id s.pendingQueries
        (fun p => if p.2.hasOnResult then some (p.1, CallbackEvent.resultEvt d) else none)
        (by
          intro p e hp
          by_cases h : p.2.hasOnResult = true
          · simp only [h, if_true, Option.some.injEq] at hp
            rw [← hp]
          · simp [h] at hp)
      have hnil : countKey id ([] : List (String × QueryOptions)) = 0 := rfl
      omega
    case error.some d =>
      simp only [stepAct, WebSocketClient.handleMessage]
      have hb := terminalCount_filterMap_le id s.pendingQueries
        (fun p => if p.2.hasOnError then some (p.1, CallbackEvent.errorEvt d.error) else none)
        (by
          intro p e hp
          by_cases h : p.2.hasOnError = true
          · simp only [h, if_true, Option.some.injEq] at hp
            rw [← hp]
          · simp [h] at hp)
      have hnil : countKey id ([] : List (String × QueryOptions)) = 0 := rfl
      omega
    all_goals
      simp [stepAct, WebSocketClient.handleMessage, terminalCount, countKey]

/-- Across any run of inbound messages and disconnect calls, the number
of terminal invocations delivered to a query identifier is bounded by
the number of its pending occurrences at the start. -/
theorem run_terminal_bound (id : String) :
    ∀ (acts : List GatewayAction) (s : WSClientState),
      terminalCount id (runActs s acts).2 +
        countKey id (runActs s acts).1.pendingQueries ≤
        countKey id s.pendingQueries := by
  intro acts
  induction acts with
  | nil =>
    intro s
    simp [runActs, terminalCount]
  | cons a acts ih =>
    intro s
    simp only [runActs]
    rw [terminalCount_append]
    have h1 := step_terminal_bound s a id
    have h2 := ih (stepAct s a).1
    omega

/-! ## Concrete fixtures used by the claim theorems -/

/-- Query options with all three callbacks supplied. -/
def allCbs : QueryOptions :=
  { hasOnProgress := true, hasOnResult := true, hasOnError := true }

/-- A connected `McpClient` (the state after `connect()` resolved). -/
def mcpConnected : McpClientState := (McpClient.connect mcpNew).1

/-- A connected gateway client with two queries pending concurrently,
both with callbacks registered. -/
def twoPending : WSClientState :=
  { wsNew "c1" with
      ws := some WsReadyState.OPEN,
      pendingQueries := [("q1", allCbs), ("q2", allCbs)] }

/-- An inbound result payload. -/
def sampleResult : MsgData := { raw := "payload", error := "" }

/-- A connected gateway client with a single pending query. -/
def wsPendingOne : WSClientState :=
  { wsNew "cx" with
      ws := some WsReadyState.OPEN,
      pendingQueries := [("idX", allCbs)] }

/-- A gateway client whose reconnection loop has given up: the socket
is closed and nulled, no attempt is in flight, and the
consecutive-failure counter has reached `maxReconnectAttempts`. -/
def givenUpState : WSClientState := { wsNew "g" with reconnectAttempts := 5 }

/-- A connected gateway client with no pending query. -/
def wsOpenState : WSClientState := { wsNew "c" with ws := some WsReadyState.OPEN }

/-! ## Claim theorems -/

/-- Claim C1 (code bug): the claim says an inbound `result` message
invokes the callback of only the query that originated it; the code
broadcasts.  At the failing input — two queries pending concurrently on
one channel and one inbound `result` — `handleMessage` invokes the
`onResult` callback of BOTH pending queries (and removes both), so the
single message is delivered to a query that did not originate it. -/
theorem handleMessage_broadcasts_result :
    WebSocketClient.handleMessage twoPending
      { type := MsgType.result, data := some sampleResult
      , query := none, session_id := none } =
      ({ twoPending with pendingQueries := [] },
       [("q1", CallbackEvent.resultEvt sampleResult),
        ("q2", CallbackEvent.resultEvt sampleResult)]) := rfl

/-- Claim C2 counterexample: the claim says every query with callbacks
eventually receives exactly one terminal callback, even when the
channel closes while it is pending.  On the concrete run where a query
is pending and `disconnect()` is called (followed by a later inbound
`result`), no callback of the pending query is ever invoked: the run
emits no events at all, so the query receives zero terminal callbacks,
not one. -/
theorem disconnect_drops_query_without_terminal :
    (runActs wsPendingOne
      [GatewayAction.close,
       GatewayAction.recv { type := MsgType.result, data := some sampleResult
                          , query := none, session_id := none }]).2 = [] ∧
    terminalCount "idX"
      (runActs wsPendingOne
        [GatewayAction.close,
         GatewayAction.recv { type := MsgType.result, data := some sampleResult
                            , query := none, session_id := none }]).2 = 0 :=
  ⟨rfl, rfl⟩

/-- Claim C2, amended: each query receives AT MOST one terminal
callback (never both, never a second one), but a query pending when
`disconnect()` is called — or dropped by the broadcast handling of an
unrelated terminal message — may receive none at all.  Formally: along
any run of inbound messages and disconnects, a query identifier pending
at most once receives at most one terminal invocation. -/
theorem query_terminal_at_most_once (s : WSClientState) (id : String)
    (acts : List GatewayAction)
    (h : countKey id s.pendingQueries ≤ 1) :
    terminalCount id (runActs s acts).2 ≤ 1 := by
  have := run_terminal_bound id acts s
  omega

/-- Witness for `query_terminal_at_most_once` at a concrete run: one
pending query, an inbound result followed by an inbound error. -/
theorem query_terminal_at_most_once_witness :
    countKey "idX" wsPendingOne.pendingQueries ≤ 1 ∧
    terminalCount "idX"
      (runActs wsPendingOne
        [GatewayAction.recv { type := MsgType.result, data := some sampleResult
                            , query := none, session_id := none },
         GatewayAction.recv { type := MsgType.error
                            , data := some { raw := "e", error := "boom" }
                            , query := none, session_id := none }]).2 ≤ 1 :=
  ⟨by decide,
   query_terminal_at_most_once wsPendingOne "idX"
     [GatewayAction.recv { type := MsgType.result, data := some sampleResult
                         , query := none, session_id := none },
      GatewayAction.recv { type := MsgType.error
                         , data := some { raw := "e", error := "boom" }
                         , query := none, session_id := none }]
     (by decide)⟩

/-- Claim C3 counterexample: the claim says
`callTool("nonexistent_tool", \x7b\x7d)` on a connected client returns a
`ToolResult` with `isError` set to `true`; in the code the mock success
branch is taken for every tool name and the `catch` branch that would
set `isError` is unreachable, so the call returns a result with
`isError` unset (`none`), not `some true`. -/
theorem callTool_unknown_tool_isError_unset :
    (McpClient.callTool mcpConnected "nonexistent_tool" emptyJson).toOption.map
        McpToolResult.isError = some none ∧
    ¬ ((McpClient.callTool mcpConnected "nonexistent_tool" emptyJson).toOption.map
        McpToolResult.isError = some (some true)) := by
  refine ⟨rfl, ?_⟩
  intro h
  rw [(rfl : (McpClient.callTool mcpConnected "nonexistent_tool" emptyJson).toOption.map
      McpToolResult.isError = some none)] at h
  cases h

/-- Claim C3, amended: `callTool` on a disconnected client fails with
`Not connected to MCP server`; after a successful connect,
`callTool("get_document_info", \x7b\x7d)` returns a `ToolResult` with
`isError` unset; and `callTool("nonexistent_tool", \x7b\x7d)` likewise
returns a `ToolResult` with `isError` unset and non-empty echo text
(the mock echoes every call), not a thrown transport error and not an
`isError: true` result. -/
theorem callTool_scenarios :
    McpClient.callTool mcpNew "get_document_info" emptyJson =
      Except.error "Not connected to MCP server" ∧
    (McpClient.callTool mcpConnected "get_document_info" emptyJson).toOption.map
      McpToolResult.isError = some none ∧
    (McpClient.callTool mcpConnected "nonexistent_tool" emptyJson).toOption.map
      McpToolResult.isError = some none ∧
    (McpClient.callTool mcpConnected "nonexistent_tool" emptyJson).toOption.map
      (fun r => ((r.content.head?.bind McpContentItem.text).getD "").isEmpty) =
      some false :=
  ⟨rfl, rfl, rfl, rfl⟩

/-- Claim C4 (confirmed): every dispatcher operation fails with the
`Not connected to MCP server` error whenever the connected flag is
down, for every argument value — the four `FigmaMCPClient` operations
and the two `McpClient` operations alike. -/
theorem dispatcher_requires_connection (c : FigmaMCPClientState)
    (s : McpClientState) (env : McpEnv) (toolName args promptName : String)
    (pargs : Option String)
    (hc : FigmaMCPClient.isClientConnected c = false)
    (hs : McpClient.isConnected s = false) :
    FigmaMCPClient.listTools c env = Except.error "Not connected to MCP server" ∧
    FigmaMCPClient.listPrompts c env = Except.error "Not connected to MCP server" ∧
    FigmaMCPClient.callTool c env toolName args =
      Except.error "Not connected to MCP server" ∧
    FigmaMCPClient.getPrompt c env promptName pargs =
      Except.error "Not connected to MCP server" ∧
    McpClient.listTools s = Except.error "Not connected to MCP server" ∧
    McpClient.callTool s toolName args =
      Except.error "Not connected to MCP server" := by
  have hc' : c.isConnected = false := hc
  have hs' : s.connected = false := hs
  refine ⟨?_, ?_, ?_, ?_, ?_, ?_⟩ <;>
    simp [FigmaMCPClient.listTools, FigmaMCPClient.listPrompts,
      FigmaMCPClient.callTool, FigmaMCPClient.getPrompt,
      McpClient.listTools, McpClient.callTool, hc', hs']

/-- Witness for `dispatcher_requires_connection` at concrete
disconnected clients and arguments. -/
theorem dispatcher_requires_connection_witness :
    FigmaMCPClient.listTools { isConnected := false } (fun _ => Except.ok "") =
      Except.error "Not connected to MCP server" ∧
    FigmaMCPClient.listPrompts { isConnected := false } (fun _ => Except.ok "") =
      Except.error "Not connected to MCP server" ∧
    FigmaMCPClient.callTool { isConnected := false } (fun _ => Except.ok "")
      "get_document_info" emptyJson = Except.error "Not connected to MCP server" ∧
    FigmaMCPClient.getPrompt { isConnected := false } (fun _ => Except.ok "")
      "design_strategy" none = Except.error "Not connected to MCP server" ∧
    McpClient.listTools mcpNew = Except.error "Not connected to MCP server" ∧
    McpClient.callTool mcpNew "get_document_info" emptyJson =
      Except.error "Not connected to MCP server" :=
  dispatcher_requires_connection { isConnected := false } mcpNew
    (fun _ => Except.ok "") "get_document_info" emptyJson "design_strategy"
    none rfl rfl

/-- Claim C6 (confirmed): whenever a connection attempt succeeds — the
socket's `open` event fires — the `onopen` handler resets the
consecutive-failure counter `reconnectAttempts` to zero. -/
theorem onopen_resets_failure_counter (s : WSClientState) :
    (WebSocketClient.wsOnOpen s).reconnectAttempts = 0 := rfl

/-- Claim C8 (confirmed): `disconnect()` is total (it never throws),
calling it twice in a row leaves the client in the same state as
calling it once, `isConnected()` is `false` after each call, and this
holds for every starting state — including one on which `connect` never
succeeded.  Both the `McpClient` and the `WebSocketClient` satisfy it. -/
theorem disconnect_idempotent_safe (s : McpClientState) (t : WSClientState) :
    McpClient.isConnected (McpClient.disconnect s) = false ∧
    McpClient.disconnect (McpClient.disconnect s) = McpClient.disconnect s ∧
    McpClient.isConnected (McpClient.disconnect (McpClient.disconnect s)) = false ∧
    WebSocketClient.isConnected (WebSocketClient.disconnect t) = false ∧
    WebSocketClient.disconnect (WebSocketClient.disconnect t) =
      WebSocketClient.disconnect t ∧
    WebSocketClient.isConnected
      (WebSocketClient.disconnect (WebSocketClient.disconnect t)) = false :=
  ⟨rfl, rfl, rfl, rfl, rfl, rfl⟩

/-- Claim C10 (confirmed): `disconnect()` on the `WebSocketClient`
removes every pending query from the pending map and invokes none of
their callbacks — the disconnect step emits no callback event at all,
so in-flight queries are dropped silently with no terminal event. -/
theorem disconnect_clears_pending_no_callbacks (s : WSClientState) :
    stepAct s GatewayAction.close =
      ({ s with ws := none, pendingQueries := [] }, []) := rfl

/-- One failure cycle preserves the configured base delay and attempt
cap, and advances the consecutive-failure counter exactly when a
reconnect was still scheduled. -/
theorem failCycle_fields (x : WSClientState) :
    (WebSocketClient.failCycle x).reconnectDelay = x.reconnectDelay ∧
    (WebSocketClient.failCycle x).maxReconnectAttempts = x.maxReconnectAttempts ∧
    (WebSocketClient.failCycle x).reconnectAttempts =
      (if x.reconnectAttempts < x.maxReconnectAttempts then
        x.reconnectAttempts + 1 else x.reconnectAttempts) := by
  by_cases h : x.reconnectAttempts < x.maxReconnectAttempts <;>
    simp [WebSocketClient.failCycle, WebSocketClient.scheduleReconnect,
      WebSocketClient.wsOnClose, h]

/-- After `k` consecutive failure cycles from a fresh client the
counter has advanced to `k`, clipped at the attempt cap, with the
configuration unchanged. -/
theorem failCycle_iterate (s : WSClientState) (h0 : s.reconnectAttempts = 0)
    (k : Nat) :
    (WebSocketClient.failCycle^[k] s).reconnectDelay = s.reconnectDelay ∧
    (WebSocketClient.failCycle^[k] s).maxReconnectAttempts =
      s.maxReconnectAttempts ∧
    (WebSocketClient.failCycle^[k] s).reconnectAttempts =
      min k s.maxReconnectAttempts := by
  induction k with
  | zero =>
    refine ⟨rfl, rfl, ?_⟩
    simp [h0]
  | succ k ih =>
    obtain ⟨h1, h2, h3⟩ := ih
    obtain ⟨g1, g2, g3⟩ := failCycle_fields (WebSocketClient.failCycle^[k] s)
    rw [Function.iterate_succ_apply']
    refine ⟨by rw [g1, h1], by rw [g2, h2], ?_⟩
    rw [g3, h3, h2]
    split <;> omega

/-- Closed form of the armed reconnect delay after `k` consecutive
failures: `base * 2 ^ k` while `k` is below the attempt cap, nothing
afterwards. -/
theorem delayAt_eq (s : WSClientState) (h0 : s.reconnectAttempts = 0)
    (k : Nat) :
    WebSocketClient.delayAt s k =
      if k < s.maxReconnectAttempts then
        some (s.reconnectDelay * 2 ^ k)
      else none := by
  obtain ⟨h1, h2, h3⟩ := failCycle_iterate s h0 k
  unfold WebSocketClient.delayAt WebSocketClient.scheduleReconnect
  rw [h1, h2, h3]
  by_cases hk : k < s.maxReconnectAttempts
  · have hm : min k s.maxReconnectAttempts = k := Nat.min_eq_left (le_of_lt hk)
    rw [hm]
  · have hm : min k s.maxReconnectAttempts = s.maxReconnectAttempts :=
      Nat.min_eq_right (le_of_not_lt hk)
    rw [hm, if_neg (lt_irrefl s.maxReconnectAttempts), if_neg hk]

/-- Claim C5 (confirmed): across any sequence of consecutive unexpected
closures, the delay armed before reconnect attempt `k+1` is
`reconnectDelay * 2 ^ k` — strictly monotone (exponential from the
configured base delay) in the consecutive-failure count — and once the
counter has reached `maxReconnectAttempts` no reconnect is ever
scheduled again. -/
theorem reconnect_backoff (s : WSClientState)
    (h0 : s.reconnectAttempts = 0) (hb : 0 < s.reconnectDelay) :
    (∀ j k dj dk, j < k →
      WebSocketClient.delayAt s j = some dj →
      WebSocketClient.delayAt s k = some dk → dj < dk) ∧
    (∀ k, s.maxReconnectAttempts ≤ k → WebSocketClient.delayAt s k = none) ∧
    (∀ t : WSClientState, t.maxReconnectAttempts ≤ t.reconnectAttempts →
      WebSocketClient.scheduleReconnect t = none) := by
  refine ⟨?_, ?_, ?_⟩
  · intro j k dj dk hjk hj hk
    rw [delayAt_eq s h0] at hj hk
    by_cases hjm : j < s.maxReconnectAttempts
    · by_cases hkm : k < s.maxReconnectAttempts
      · rw [if_pos hjm] at hj
        rw [if_pos hkm] at hk
        cases hj
        cases hk
        have hp : (2 : Nat) ^ j < 2 ^ k := Nat.pow_lt_pow_right (by norm_num) hjk
        exact mul_lt_mul_of_pos_left hp hb
      · rw [if_neg hkm] at hk
        cases hk
    · rw [if_neg hjm] at hj
      cases hj
  · intro k hk
    rw [delayAt_eq s h0]
    rw [if_neg (by omega : ¬ k < s.maxReconnectAttempts)]
  · intro t ht
    unfold WebSocketClient.scheduleReconnect
    rw [if_neg (by omega : ¬ t.reconnectAttempts < t.maxReconnectAttempts)]

/-- Witness for `reconnect_backoff` on a fresh client (base delay
1000ms, cap 5): the delays before attempts 1 and 4 are 1000 and 8000,
1000 < 8000, and after 5 failures nothing is scheduled. -/
theorem reconnect_backoff_witness :
    (wsNew "w5").reconnectAttempts = 0 ∧
    0 < (wsNew "w5").reconnectDelay ∧
    WebSocketClient.delayAt (wsNew "w5") 0 = some 1000 ∧
    WebSocketClient.delayAt (wsNew "w5") 3 = some 8000 ∧
    (1000 : Nat) < 8000 ∧
    WebSocketClient.delayAt (wsNew "w5") 5 = none := by
  refine ⟨rfl, by decide, by decide, by decide, ?_, ?_⟩
  · exact (reconnect_backoff (wsNew "w5") rfl (by decide)).1 0 3 1000 8000
      (by decide) (by decide) (by decide)
  · exact (reconnect_backoff (wsNew "w5") rfl (by decide)).2.1 5 (by decide)

/-- Claim C7 counterexample: the claim says a query issued while the
reconnect loop has given up fails immediately with a terminal error
event.  In the code `sendQuery` is not gated on the given-up state at
all: it starts a fresh connection attempt, and when that attempt opens
the query is sent normally — the call SUCCEEDS (and resets the failure
counter), so it neither fails immediately nor emits any error event. -/
theorem sendQuery_givenUp_can_succeed :
    WebSocketClient.sendQuery givenUpState ConnectOutcome.opens "q" none
      (some allCbs) "id9" =
      Except.ok
        ({ givenUpState with
            isConnecting := false,
            reconnectAttempts := 0,
            ws := some WsReadyState.OPEN,
            pendingQueries := [("id9", allCbs)] },
         { type := MsgType.query, data := none, query := some "q"
         , session_id := none }) := rfl

/-- Claim C7, amended: a query issued while the state is given up (cap
reached, socket closed, no attempt in flight) is not failed
immediately: `sendQuery` starts a fresh connection attempt.  If the
attempt errors or the 10s connect timeout expires, the call rejects
with that thrown error (a bounded wait, and no `onError` callback event
is delivered — the pending map is untouched); if the attempt opens, the
query is sent normally.  Meanwhile `scheduleReconnect` itself never
arms another automatic retry in this state. -/
theorem sendQuery_givenUp_amended (s : WSClientState) (q : String)
    (sid : Option String) (o : QueryOptions) (id : String)
    (hws : s.ws = none) (hic : s.isConnecting = false)
    (hgu : s.maxReconnectAttempts ≤ s.reconnectAttempts) :
    WebSocketClient.sendQuery s ConnectOutcome.errors q sid (some o) id =
      Except.error "WebSocket error" ∧
    WebSocketClient.sendQuery s ConnectOutcome.timesOut q sid (some o) id =
      Except.error "Connection timeout" ∧
    WebSocketClient.sendQuery s ConnectOutcome.opens q sid (some o) id =
      Except.ok
        ({ WebSocketClient.wsOnOpen s with
            ws := some WsReadyState.OPEN,
            pendingQueries := setPending s.pendingQueries id o },
         { type := MsgType.query, data := none, query := some q
         , session_id := sid }) ∧
    WebSocketClient.scheduleReconnect s = none := by
  have hns : ¬ (s.ws = some WsReadyState.OPEN) := by
    rw [hws]
    simp
  refine ⟨?_, ?_, ?_, ?_⟩
  · simp [WebSocketClient.sendQuery, WebSocketClient.connect, hic, hns]
  · simp [WebSocketClient.sendQuery, WebSocketClient.connect, hic, hns]
  · simp [WebSocketClient.sendQuery, WebSocketClient.connect,
      WebSocketClient.wsOnOpen, hic, hns]
  · unfold WebSocketClient.scheduleReconnect
    rw [if_neg (by omega : ¬ s.reconnectAttempts < s.maxReconnectAttempts)]

/-- Witness for `sendQuery_givenUp_amended` at the concrete given-up
client. -/
theorem sendQuery_givenUp_amended_witness :
    WebSocketClient.sendQuery givenUpState ConnectOutcome.errors "q" none
      (some allCbs) "id7" = Except.error "WebSocket error" ∧
    WebSocketClient.sendQuery givenUpState ConnectOutcome.timesOut "q" none
      (some allCbs) "id7" = Except.error "Connection timeout" ∧
    WebSocketClient.sendQuery givenUpState ConnectOutcome.opens "q" none
      (some allCbs) "id7" =
      Except.ok
        ({ WebSocketClient.wsOnOpen givenUpState with
            ws := some WsReadyState.OPEN,
            pendingQueries := setPending givenUpState.pendingQueries "id7" allCbs },
         { type := MsgType.query, data := none, query := some "q"
         , session_id := none }) ∧
    WebSocketClient.scheduleReconnect givenUpState = none :=
  sendQuery_givenUp_amended givenUpState "q" none allCbs "id7" rfl rfl
    (by decide)

/-- Claim C9 (confirmed): the fresh per-query identifier generated by
`sendQuery` to key the pending-callback map never appears in the
outbound wire message: whenever `sendQuery` sends, the message is
exactly `\x7btype: "query", query, session_id\x7d`, and the message sent is
independent of the generated identifier. -/
theorem sendQuery_wire_omits_queryId (s : WSClientState)
    (env : ConnectOutcome) (q : String) (sid : Option String)
    (o : Option QueryOptions) (id1 id2 : String) (s' : WSClientState)
    (m : WebSocketMessage)
    (h : WebSocketClient.sendQuery s env q sid o id1 = Except.ok (s', m)) :
    m = { type := MsgType.query, data := none, query := some q
        , session_id := sid } ∧
    (WebSocketClient.sendQuery s env q sid o id1).map Prod.snd =
      (WebSocketClient.sendQuery s env q sid o id2).map Prod.snd := by
  unfold WebSocketClient.sendQuery at h ⊢
  cases hc : WebSocketClient.connect s env with
  | error e =>
    rw [hc] at h
    simp at h
  | ok p =>
    obtain ⟨s0, okb⟩ := p
    rw [hc] at h
    cases okb with
    | false => simp at h
    | true => cases o <;> simp_all [Except.map]

/-- Witness for `sendQuery_wire_omits_queryId` at a concrete connected
client and query. -/
theorem sendQuery_wire_omits_queryId_witness :
    ({ type := MsgType.query, data := none, query := some "hello"
     , session_id := some "sess" } : WebSocketMessage) =
      { type := MsgType.query, data := none, query := some "hello"
      , session_id := some "sess" } ∧
    (WebSocketClient.sendQuery wsOpenState ConnectOutcome.opens "hello"
        (some "sess") (some allCbs) "idA").map Prod.snd =
      (WebSocketClient.sendQuery wsOpenState ConnectOutcome.opens "hello"
        (some "sess") (some allCbs) "idB").map Prod.snd :=
  sendQuery_wire_omits_queryId wsOpenState ConnectOutcome.opens "hello"
    (some "sess") (some allCbs) "idA" "idB"
    { wsOpenState with pendingQueries := [("idA", allCbs)] }
    { type := MsgType.query, data := none, query := some "hello"
    , session_id := some "sess" }
    (by rfl)
